import Mathlib

/-!
Verification development for the credential-rotation core of the proxy
repository: the Groq and OpenRouter key-pool providers
(src/shared/key-management/groq/provider.ts,
src/shared/key-management/openrouter/provider.ts), their health-checker
error handling (.../checker.ts), and the request-mutation pipeline
(src/proxy/openrouter.ts, src/proxy/middleware/request/index.ts).

Modelling conventions:
- JavaScript numbers used as epoch-millisecond timestamps and USD balances
  are modelled as Int (only comparisons and additions occur in the code).
- Date.now() is passed explicitly as a parameter named now.  The source
  calls Date.now() more than once inside get(); all calls within one
  operation are modelled as the same instant.
- A TypeScript array of keys mutated in place is modelled as a List with
  positional updates (List.set / an update-first-match combinator), which
  preserves the object-identity semantics of the source.
- Operations that dereference the result of a failed Array.find via a
  non-null assertion (and hence throw at runtime) are modelled as
  Option-returning functions, with none for the thrown TypeError.
- Status strings become enumerations; string predicates on them
  (startsWith/includes) are tabulated per constructor.
-/

/-- One input/output token counter pair (the value type of tokenUsage). -/
structure TokenUsage where
  input : Int
  output : Int
deriving DecidableEq, Repr

/-- Mirrors the source pattern of incrementUsage: ensure an entry for the
family exists (inserting a zero entry at the end if absent), then add the
usage to the first entry with that family. -/
def addUsage [BEq γ] : List (γ × TokenUsage) → γ → TokenUsage → List (γ × TokenUsage)
  | [], fam, u => [(fam, ⟨u.input, u.output⟩)]
  | (f, v) :: rest, fam, u =>
    if f == fam then (f, ⟨v.input + u.input, v.output + u.output⟩) :: rest
    else (f, v) :: addUsage rest fam u

/-- Models this.keys.find(p) followed by an in-place mutation of the found
record: replaces the first element satisfying p by its image under f, and
returns none when no element matches (the source would then throw on the
non-null-asserted dereference). -/
def updateFirst (p : α → Bool) (f : α → α) : List α → Option (List α)
  | [] => none
  | k :: ks => if p k then some (f k :: ks) else (updateFirst p f ks).map (k :: ·)

/-- Models sorting by a consistent strict comparator and taking element 0:
JavaScript Array.prototype.sort is stable, so the first element of the
sorted array is the first element of the original array that is minimal
with respect to the comparator, which this fold computes (lt a b means the
comparator orders a strictly before b). -/
def pickBest (lt : α → α → Bool) : List α → Option α
  | [] => none
  | x :: xs => some (xs.foldl (fun best y => if lt y best then y else best) x)

/-! ## Groq provider (src/shared/key-management/groq/provider.ts) -/

/-- GroqModelFamily: the seven families every Groq key is entitled to
("groq-llama-8b", "groq-llama-70b", "groq-llama-4-17b", "groq-gpt-oss-120b",
"groq-gpt-oss-20b", "groq-kimi", "groq-qwen-32b"). -/
inductive GroqModelFamily
  | llama8b | llama70b | llama4_17b | gptOss120b | gptOss20b | kimi | qwen32b
deriving DecidableEq, Repr

/-- GroqKeyStatus: 'ACTIVE' | 'RATE_LIMITED' | 'INVALID' | 'DEAD' | 'UNKNOWN'. -/
inductive GroqKeyStatus
  | ACTIVE | RATE_LIMITED | INVALID | DEAD | UNKNOWN
deriving DecidableEq, Repr

/-- STATUS_PRIORITY table of the Groq provider. -/
def groqStatusPriority : GroqKeyStatus → Nat
  | .ACTIVE => 5
  | .RATE_LIMITED => 2
  | .UNKNOWN => 1
  | .INVALID => 0
  | .DEAD => 0

/-- Rate limit header info attached to a Groq key by the checker. -/
structure RateLimitInfo where
  rpm : Int
  tpm : Int
  rpd : Option Int
  tpd : Option Int
deriving DecidableEq, Repr

/-- GroqKey record (service tag, a readonly constant "groq", is omitted). -/
structure GroqKey where
  key : String
  hash : String
  modelFamilies : List GroqModelFamily
  isDisabled : Bool
  isRevoked : Bool
  isOverQuota : Bool
  promptCount : Nat
  lastUsed : Int
  rateLimitedAt : Int
  rateLimitedUntil : Int
  lastChecked : Int
  tokenUsage : List (GroqModelFamily × TokenUsage)
  status : GroqKeyStatus
  info : String
  rateLimitInfo : Option RateLimitInfo
deriving DecidableEq, Repr

/-- A Partial GroqKey as passed to update(): a field that is none is absent
from the update object.  rateLimitInfo is doubly optional because callers
pass rateLimitInfo: undefined explicitly, which the object spread does copy. -/
structure GroqKeyUpdate where
  status : Option GroqKeyStatus := none
  info : Option String := none
  isDisabled : Option Bool := none
  isRevoked : Option Bool := none
  isOverQuota : Option Bool := none
  lastChecked : Option Int := none
  rateLimitInfo : Option (Option RateLimitInfo) := none
deriving Repr

/-- Body of GroqKeyProvider.update applied to the found record: when a
status is present the derived flags are recomputed (isOverQuota from the
new status; disable/revoke on DEAD/INVALID; re-enable when leaving
DEAD/INVALID), then Object.assign(keyFromPool, { lastChecked: Date.now(),
...update }) merges the update over the record. -/
def applyGroqUpdate (u : GroqKeyUpdate) (now : Int) (k : GroqKey) : GroqKey :=
  let u :=
    match u.status with
    | none => u
    | some s =>
      let oq := s == GroqKeyStatus.RATE_LIMITED || s == GroqKeyStatus.INVALID
      if s == GroqKeyStatus.DEAD || s == GroqKeyStatus.INVALID then
        { u with isOverQuota := some oq, isDisabled := some true,
                 isRevoked := some (s == GroqKeyStatus.DEAD) }
      else if k.status == GroqKeyStatus.DEAD || k.status == GroqKeyStatus.INVALID then
        { u with isOverQuota := some oq, isDisabled := some false,
                 isRevoked := some false }
      else { u with isOverQuota := some oq }
  { k with
    status := u.status.getD k.status
    info := u.info.getD k.info
    isDisabled := u.isDisabled.getD k.isDisabled
    isRevoked := u.isRevoked.getD k.isRevoked
    isOverQuota := u.isOverQuota.getD k.isOverQuota
    lastChecked := u.lastChecked.getD now
    rateLimitInfo := u.rateLimitInfo.getD k.rateLimitInfo }

/-- GroqKeyProvider.update: find the record by hash (none models the throw
on an unknown hash) and apply the update. -/
def groqUpdate (pool : List GroqKey) (hash : String) (u : GroqKeyUpdate)
    (now : Int) : Option (List GroqKey) :=
  updateFirst (fun k => k.hash == hash) (applyGroqUpdate u now) pool

/-- The filter predicate of GroqKeyProvider.get, written as a conjunction
equivalent to the source's early-return checks 1-5 (disabled, zero
priority, over quota, inside the rate-limit window, family entitlement). -/
def groqEligible (fam : GroqModelFamily) (now : Int) (k : GroqKey) : Bool :=
  !k.isDisabled &&
  !(groqStatusPriority k.status == 0) &&
  !k.isOverQuota &&
  !(decide (now < k.rateLimitedUntil)) &&
  k.modelFamilies.contains fam

/-- The availableKeys list of GroqKeyProvider.get, with each surviving
record paired with its position in the pool (modelling object identity). -/
def groqAvailable (pool : List GroqKey) (fam : GroqModelFamily) (now : Int) :
    List (Nat × GroqKey) :=
  pool.enum.filter (fun p => groqEligible fam now p.2)

/-- The sort comparator of GroqKeyProvider.get as a strict before relation:
higher status priority first, then lower lastUsed (LRU). -/
def groqBefore (a b : GroqKey) : Bool :=
  if groqStatusPriority a.status != groqStatusPriority b.status then
    decide (groqStatusPriority b.status < groqStatusPriority a.status)
  else decide (a.lastUsed < b.lastUsed)

/-- GroqKeyProvider.get: filter, sort, take the first, stamp its lastUsed
in the pool, and return a copy.  The error string is the
PaymentRequiredError message. -/
def groqGet (pool : List GroqKey) (fam : GroqModelFamily) (now : Int) :
    Except String (GroqKey × List GroqKey) :=
  match pickBest (fun a b => groqBefore a.2 b.2) (groqAvailable pool fam now) with
  | none => .error "No active Groq keys available."
  | some (i, k) =>
    .ok ({ k with lastUsed := now }, pool.set i { k with lastUsed := now })

/-- GroqKeyProvider.list: a redacted copy of every record (key scrubbed). -/
def groqList (pool : List GroqKey) : List GroqKey :=
  pool.map (fun k => { k with key := "" })

/-- GroqKeyProvider.incrementUsage: silently a no-op when the hash is not
in the pool, otherwise bumps promptCount and the per-family counters. -/
def groqIncrementUsage (pool : List GroqKey) (hash : String)
    (fam : GroqModelFamily) (u : TokenUsage) : List GroqKey :=
  (updateFirst (fun k => k.hash == hash)
    (fun k => { k with
      promptCount := k.promptCount + 1
      tokenUsage := addUsage k.tokenUsage fam u }) pool).getD pool

/-- RATE_LIMIT_LOCKOUT of the Groq provider (1 minute). -/
def GROQ_RATE_LIMIT_LOCKOUT : Int := 60000

/-- GroqKeyProvider.markRateLimited: stamp the rate limit window on the
found record (throwing, i.e. none, on an unknown hash), then drive update()
with a RATE_LIMITED status. -/
def groqMarkRateLimited (pool : List GroqKey) (hash : String) (now : Int) :
    Option (List GroqKey) :=
  (updateFirst (fun k => k.hash == hash)
    (fun k => { k with rateLimitedAt := now,
                       rateLimitedUntil := now + GROQ_RATE_LIMIT_LOCKOUT }) pool).bind
    (fun p => groqUpdate p hash
      { status := some .RATE_LIMITED, info := some "Rate limited by proxy" } now)

/-- The update payload GroqKeyProvider.recheck passes for every key. -/
def groqRecheckPayload : GroqKeyUpdate :=
  { status := some .UNKNOWN, info := some "Recheck scheduled",
    isOverQuota := some false, isDisabled := some false, isRevoked := some false,
    lastChecked := some 0, rateLimitInfo := some none }

/-- GroqKeyProvider.recheck: update every key (iterating the hashes of the
pool as forEach does) with the reset payload. -/
def groqRecheck (pool : List GroqKey) (now : Int) : Option (List GroqKey) :=
  (pool.map (fun k => k.hash)).foldl
    (fun acc h => acc.bind (fun p => groqUpdate p h groqRecheckPayload now)) (some pool)

/-- KEY_CHECK_PERIOD of the Groq checker (2 hours). -/
def GROQ_KEY_CHECK_PERIOD : Int := 7200000

/-- One hour in milliseconds, as in the checker's network-error branch. -/
def ONE_HOUR : Int := 3600000

/-- GroqKeyChecker.handleAxiosError: code is the HTTP status of the axios
error response (none when there is no response, i.e. a pure network
failure).  429 and 401 get dedicated status updates; everything else only
rolls lastChecked back to now - (KEY_CHECK_PERIOD - one hour). -/
def groqHandleAxiosError (pool : List GroqKey) (hash : String)
    (code : Option Nat) (now : Int) : Option (List GroqKey) :=
  if code == some 429 then
    groqUpdate pool hash
      { status := some .RATE_LIMITED, info := some "Rate limit exceeded during check." } now
  else if code == some 401 then
    groqUpdate pool hash
      { status := some .INVALID, info := some "Invalid API key.",
        isDisabled := some true, isRevoked := some true } now
  else
    groqUpdate pool hash
      { lastChecked := some (now - (GROQ_KEY_CHECK_PERIOD - ONE_HOUR)) } now

/-! ## OpenRouter provider (src/shared/key-management/openrouter/provider.ts) -/

/-- OpenRouterModuleFamily: "openrouter-paid" | "openrouter-free". -/
inductive ORModelFamily
  | paid | free
deriving DecidableEq, Repr

/-- OpenRouterKeyStatus: 'PAID (Balance)' | 'PAID (No Credits)' |
'PAID (Limit Reached)' | 'FREE (Active)' | 'FREE (Exhausted)' | 'DEAD' |
'UNKNOWN (Rate Limited)'. -/
inductive ORKeyStatus
  | PAID_Balance | PAID_NoCredits | PAID_LimitReached
  | FREE_Active | FREE_Exhausted | DEAD | UNKNOWN_RateLimited
deriving DecidableEq, Repr

/-- STATUS_PRIORITY table of the OpenRouter provider. -/
def orStatusPriority : ORKeyStatus → Nat
  | .PAID_Balance => 5
  | .FREE_Active => 3
  | .PAID_NoCredits => 1
  | .PAID_LimitReached => 1
  | .FREE_Exhausted => 1
  | .DEAD => 0
  | .UNKNOWN_RateLimited => 0

/-- status.startsWith('PAID'), tabulated over the status strings. -/
def orStatusIsPaid : ORKeyStatus → Bool
  | .PAID_Balance => true
  | .PAID_NoCredits => true
  | .PAID_LimitReached => true
  | _ => false

/-- status.includes('No Credits') || status.includes('Exhausted') ||
status.includes('Limit Reached'), tabulated over the status strings. -/
def orStatusOverQuota : ORKeyStatus → Bool
  | .PAID_NoCredits => true
  | .PAID_LimitReached => true
  | .FREE_Exhausted => true
  | _ => false

/-- status.startsWith('FREE'), tabulated over the status strings. -/
def orStatusIsFree : ORKeyStatus → Bool
  | .FREE_Active => true
  | .FREE_Exhausted => true
  | _ => false

/-- OpenRouterKey record (service tag, a readonly constant "openrouter",
is omitted).  remainingBalance models number | null as Option Int. -/
structure ORKey where
  key : String
  hash : String
  modelFamilies : List ORModelFamily
  isDisabled : Bool
  isRevoked : Bool
  isOverQuota : Bool
  promptCount : Nat
  lastUsed : Int
  rateLimitedAt : Int
  rateLimitedUntil : Int
  lastChecked : Int
  tokenUsage : List (ORModelFamily × TokenUsage)
  status : ORKeyStatus
  info : String
  isPaid : Bool
  remainingBalance : Option Int
  isFreeTier : Bool
deriving DecidableEq, Repr

/-- A Partial OpenRouterKey as passed to update().  remainingBalance is
doubly optional: the outer none means the field is absent from the update
object, the inner none models an explicit null. -/
structure ORKeyUpdate where
  status : Option ORKeyStatus := none
  info : Option String := none
  isDisabled : Option Bool := none
  isRevoked : Option Bool := none
  isOverQuota : Option Bool := none
  isPaid : Option Bool := none
  isFreeTier : Option Bool := none
  remainingBalance : Option (Option Int) := none
  lastChecked : Option Int := none
deriving Repr

/-- Body of OpenRouterKeyProvider.update applied to the found record: when
a status is present, isPaid/isOverQuota/isFreeTier are recomputed from the
new status string, DEAD and UNKNOWN (Rate Limited) disable (and DEAD
revokes), and leaving those two statuses re-enables; then
Object.assign(keyFromPool, { lastChecked: Date.now(), ...update }). -/
def applyORUpdate (u : ORKeyUpdate) (now : Int) (k : ORKey) : ORKey :=
  let u :=
    match u.status with
    | none => u
    | some s =>
      if s == ORKeyStatus.DEAD || s == ORKeyStatus.UNKNOWN_RateLimited then
        { u with isPaid := some (orStatusIsPaid s),
                 isOverQuota := some (orStatusOverQuota s),
                 isFreeTier := some (orStatusIsFree s),
                 isDisabled := some true,
                 isRevoked := some (s == ORKeyStatus.DEAD) }
      else if k.status == ORKeyStatus.DEAD || k.status == ORKeyStatus.UNKNOWN_RateLimited then
        { u with isPaid := some (orStatusIsPaid s),
                 isOverQuota := some (orStatusOverQuota s),
                 isFreeTier := some (orStatusIsFree s),
                 isDisabled := some false,
                 isRevoked := some false }
      else
        { u with isPaid := some (orStatusIsPaid s),
                 isOverQuota := some (orStatusOverQuota s),
                 isFreeTier := some (orStatusIsFree s) }
  { k with
    status := u.status.getD k.status
    info := u.info.getD k.info
    isDisabled := u.isDisabled.getD k.isDisabled
    isRevoked := u.isRevoked.getD k.isRevoked
    isOverQuota := u.isOverQuota.getD k.isOverQuota
    isPaid := u.isPaid.getD k.isPaid
    isFreeTier := u.isFreeTier.getD k.isFreeTier
    remainingBalance := u.remainingBalance.getD k.remainingBalance
    lastChecked := u.lastChecked.getD now }

/-- OpenRouterKeyProvider.update: find the record by hash (none models the
throw on an unknown hash) and apply the update. -/
def orUpdate (pool : List ORKey) (hash : String) (u : ORKeyUpdate)
    (now : Int) : Option (List ORKey) :=
  updateFirst (fun k => k.hash == hash) (applyORUpdate u now) pool

/-- k.remainingBalance !== null && k.remainingBalance <= 0. -/
def orBalanceDepleted : Option Int → Bool
  | none => false
  | some b => decide (b ≤ 0)

/-- The filter predicate of OpenRouterKeyProvider.get, written as a
conjunction equivalent to the source's early-return checks 1-6 (disabled,
zero priority, the paid-tier rule, the free-tier rule, the rate-limit
window, family entitlement). -/
def orEligible (fam : ORModelFamily) (now : Int) (k : ORKey) : Bool :=
  !k.isDisabled &&
  !(orStatusPriority k.status == 0) &&
  !(fam == ORModelFamily.paid && (!k.isPaid || orBalanceDepleted k.remainingBalance)) &&
  !(fam == ORModelFamily.free && (k.isFreeTier && k.status == ORKeyStatus.FREE_Exhausted)) &&
  !(decide (now < k.rateLimitedUntil)) &&
  k.modelFamilies.contains fam

/-- The availableKeys list of OpenRouterKeyProvider.get, with positions. -/
def orAvailable (pool : List ORKey) (fam : ORModelFamily) (now : Int) :
    List (Nat × ORKey) :=
  pool.enum.filter (fun p => orEligible fam now p.2)

/-- a.remainingBalance || 0 (null coalesces to 0; 0 stays 0). -/
def orCoalesceBalance : Option Int → Int
  | none => 0
  | some b => b

/-- The sort comparator of OpenRouterKeyProvider.get as a strict before
relation: higher status priority, then higher coalesced remaining balance,
then lower lastUsed (LRU). -/
def orBefore (a b : ORKey) : Bool :=
  if orStatusPriority a.status != orStatusPriority b.status then
    decide (orStatusPriority b.status < orStatusPriority a.status)
  else if orCoalesceBalance a.remainingBalance != orCoalesceBalance b.remainingBalance then
    decide (orCoalesceBalance b.remainingBalance < orCoalesceBalance a.remainingBalance)
  else decide (a.lastUsed < b.lastUsed)

/-- The tier-aware PaymentRequiredError message of OpenRouterKeyProvider.get. -/
def orExhaustionMessage (fam : ORModelFamily) : String :=
  match fam with
  | .paid => "No active OpenRouter Paid keys available (Balance depleted or key limit reached)."
  | .free => "No active OpenRouter Free keys available (Free tier exhausted)."

/-- OpenRouterKeyProvider.get: filter, sort, take the first, stamp its
lastUsed in the pool, and return a copy. -/
def orGet (pool : List ORKey) (fam : ORModelFamily) (now : Int) :
    Except String (ORKey × List ORKey) :=
  match pickBest (fun a b => orBefore a.2 b.2) (orAvailable pool fam now) with
  | none => .error (orExhaustionMessage fam)
  | some (i, k) =>
    .ok ({ k with lastUsed := now }, pool.set i { k with lastUsed := now })

/-- OpenRouterKeyProvider.list: a redacted copy of every record. -/
def orList (pool : List ORKey) : List ORKey :=
  pool.map (fun k => { k with key := "" })

/-- OpenRouterKeyProvider.incrementUsage: silently a no-op when the hash is
not in the pool. -/
def orIncrementUsage (pool : List ORKey) (hash : String)
    (fam : ORModelFamily) (u : TokenUsage) : List ORKey :=
  (updateFirst (fun k => k.hash == hash)
    (fun k => { k with
      promptCount := k.promptCount + 1
      tokenUsage := addUsage k.tokenUsage fam u }) pool).getD pool

/-- RATE_LIMIT_LOCKOUT of the OpenRouter provider (15 seconds). -/
def OR_RATE_LIMIT_LOCKOUT : Int := 15000

/-- OpenRouterKeyProvider.markRateLimited: stamps the rate limit window on
the found record (none models the throw on an unknown hash).  Unlike the
Groq provider it does not call update(). -/
def orMarkRateLimited (pool : List ORKey) (hash : String) (now : Int) :
    Option (List ORKey) :=
  updateFirst (fun k => k.hash == hash)
    (fun k => { k with rateLimitedAt := now,
                       rateLimitedUntil := now + OR_RATE_LIMIT_LOCKOUT }) pool

/-- The update payload OpenRouterKeyProvider.recheck passes for every key. -/
def orRecheckPayload : ORKeyUpdate :=
  { status := some .UNKNOWN_RateLimited, info := some "Recheck scheduled",
    isPaid := some false, isOverQuota := some false, isDisabled := some false,
    isRevoked := some false, lastChecked := some 0,
    remainingBalance := some none, isFreeTier := some false }

/-- OpenRouterKeyProvider.recheck: update every key (iterating the hashes
of the pool as forEach does) with the reset payload. -/
def orRecheck (pool : List ORKey) (now : Int) : Option (List ORKey) :=
  (pool.map (fun k => k.hash)).foldl
    (fun acc h => acc.bind (fun p => orUpdate p h orRecheckPayload now)) (some pool)

/-- KEY_CHECK_PERIOD of the OpenRouter checker (24 hours). -/
def OR_KEY_CHECK_PERIOD : Int := 86400000

/-- OpenRouterKeyChecker.handleAxiosError: only 429 gets a status update;
every other axios error (401 included) rolls lastChecked back to
now - (KEY_CHECK_PERIOD - one hour) and also resets remainingBalance to
null. -/
def orHandleAxiosError (pool : List ORKey) (hash : String)
    (code : Option Nat) (now : Int) : Option (List ORKey) :=
  if code == some 429 then
    orUpdate pool hash
      { status := some .UNKNOWN_RateLimited,
        info := some "Rate limit exceeded during check.",
        remainingBalance := some none } now
  else
    orUpdate pool hash
      { lastChecked := some (now - (OR_KEY_CHECK_PERIOD - ONE_HOUR)),
        remainingBalance := some none } now

/-! ## Mutation pipeline (src/proxy/openrouter.ts, src/proxy/groq.ts,
src/proxy/middleware/request/index.ts) -/

/-- The bit-relevant parts of the outbound request: url (path plus query),
headers and serialized body. -/
structure ProxyRequest where
  url : String
  headers : List (String × String)
  body : String
deriving DecidableEq, Repr

/-- Replace the first header with the given name, or append it. -/
def setHeaderAssoc (name value : String) : List (String × String) → List (String × String)
  | [] => [(name, value)]
  | (n, v) :: rest =>
    if n == name then (n, value) :: rest else (n, v) :: setHeaderAssoc name value rest

/-- Modelled from the spec: the Mutation Manager (ProxyReqManager, whose
source file is not part of src/) "holds the original request snapshot ...
and the current mutable view handed to each mutator"; given the original
pristine request captured when the manager was created, it can restore
that original state before the chain is re-run (spec section 4.3). -/
structure ProxyReqManager where
  original : ProxyRequest
  request : ProxyRequest
deriving DecidableEq, Repr

/-- Modelled from the spec: manager.setPath alters the path of the current
request view. -/
def ProxyReqManager.setPath (m : ProxyReqManager) (p : String) : ProxyReqManager :=
  { m with request := { m.request with url := p } }

/-- Modelled from the spec: a mutator may alter headers of the current view. -/
def ProxyReqManager.setHeader (m : ProxyReqManager) (name value : String) : ProxyReqManager :=
  { m with request := { m.request with headers := setHeaderAssoc name value m.request.headers } }

/-- Modelled from the spec: a mutator may alter the body of the current view. -/
def ProxyReqManager.setBody (m : ProxyReqManager) (b : String) : ProxyReqManager :=
  { m with request := { m.request with body := b } }

/-- Modelled from the spec: a fresh manager is created around the outbound
request and records it as the pristine original. -/
def mkManager (r : ProxyRequest) : ProxyReqManager := { original := r, request := r }

/-- Modelled from the spec: before a retry the manager restores the
recorded original state so the chain re-runs from scratch. -/
def ProxyReqManager.reset (m : ProxyReqManager) : ProxyReqManager :=
  { m with request := m.original }

/-- selectUpstreamPath from src/proxy/openrouter.ts: strip a leading /v1
prefix from the path part of req.url (substring(3) after "/v1/",
substring(2) after a bare "/v1"), keeping the query string. -/
def selectUpstreamPath (m : ProxyReqManager) : ProxyReqManager :=
  let url := m.request.url
  let pathname := (url.splitOn "?").headD ""
  let newPathname :=
    if pathname.startsWith "/v1/" then pathname.drop 3
    else if pathname.startsWith "/v1" then pathname.drop 2
    else pathname
  m.setPath (newPathname ++ url.drop pathname.length)

/-- Modelled from the spec: the addKey mutator (source not part of src/)
performs "credential injection (reads a credential from the Credential
Pool's get, sets the auth header)"; the probe protocol uses an
Authorization bearer header with the credential's secret. -/
def addKey (key : String) (m : ProxyReqManager) : ProxyReqManager :=
  m.setHeader "Authorization" ("Bearer " ++ key)

/-- Modelled from the spec: the finalizeBody mutator (source not part of
src/) "serializes/normalizes the outbound payload, e.g. recomputing
Content-Length". -/
def finalizeBody (m : ProxyReqManager) : ProxyReqManager :=
  (m.setHeader "Content-Length" (toString m.request.body.length)).setBody m.request.body

/-- The mutator chain of the OpenRouter proxy route:
[selectUpstreamPath, addKey, finalizeBody]. -/
def orMutatorChain (key : String) : List (ProxyReqManager → ProxyReqManager) :=
  [selectUpstreamPath, addKey key, finalizeBody]

/-- The mutator chain of the Groq proxy route: [addKey, finalizeBody]. -/
def groqMutatorChain (key : String) : List (ProxyReqManager → ProxyReqManager) :=
  [addKey key, finalizeBody]

/-- Run every mutator of a chain in order against the manager. -/
def runChain (chain : List (ProxyReqManager → ProxyReqManager))
    (m : ProxyReqManager) : ProxyReqManager :=
  chain.foldl (fun acc f => f acc) m

/-! ## Helper lemmas -/

theorem updateFirst_none_of_no_match (p : α → Bool) (f : α → α) :
    ∀ l : List α, (∀ x ∈ l, p x = false) → updateFirst p f l = none := by
  intro l h
  induction l with
  | nil => rfl
  | cons x xs ih =>
    have hx : p x = false := h x (List.mem_cons_self x xs)
    simp only [updateFirst, hx, if_neg Bool.false_ne_true]
    rw [ih (fun y hy => h y (List.mem_cons_of_mem x hy))]
    rfl

theorem updateFirst_append (p : α → Bool) (f : α → α) (l₁ : List α) (k : α) (l₂ : List α)
    (h₁ : ∀ x ∈ l₁, p x = false) (hk : p k = true) :
    updateFirst p f (l₁ ++ k :: l₂) = some (l₁ ++ f k :: l₂) := by
  induction l₁ with
  | nil => simp [updateFirst, hk]
  | cons x xs ih =>
    have hx : p x = false := h₁ x (List.mem_cons_self x xs)
    have ih2 := ih (fun y hy => h₁ y (List.mem_cons_of_mem x hy))
    simp [updateFirst, hx, ih2]

theorem updateFirst_congr (p : α → Bool) (f g : α → α) (hfg : ∀ x, f x = g x) :
    ∀ l : List α, updateFirst p f l = updateFirst p g l := by
  intro l
  induction l with
  | nil => rfl
  | cons x xs ih =>
    by_cases hx : p x = true
    · simp [updateFirst, hx, hfg x]
    · simp [updateFirst, hx, ih]

theorem updateFirst_bind (p : α → Bool) (f g : α → α) (hpf : ∀ x, p (f x) = p x) :
    ∀ l : List α,
      (updateFirst p f l).bind (updateFirst p g) = updateFirst p (fun x => g (f x)) l := by
  intro l
  induction l with
  | nil => rfl
  | cons x xs ih =>
    by_cases hx : p x = true
    · simp [updateFirst, hx, Option.bind, hpf x]
    · have hx' : p x = false := by simpa using hx
      cases hfx : updateFirst p f xs with
      | none =>
        rw [hfx] at ih
        simp only [Option.none_bind] at ih
        simp [updateFirst, hx', hfx, ← ih]
      | some l₂ =>
        rw [hfx] at ih
        simp only [Option.some_bind] at ih
        simp [updateFirst, hx', hfx, ← ih]

theorem pickBest_mem (lt : α → α → Bool) (l : List α) (x : α)
    (h : pickBest lt l = some x) : x ∈ l := by
  cases l with
  | nil => cases h
  | cons a as =>
    have hx : as.foldl (fun best y => if lt y best then y else best) a = x := by
      simpa [pickBest] using h
    have hmem : ∀ (init : α) (l : List α),
        l.foldl (fun best y => if lt y best then y else best) init ∈ init :: l := by
      intro init l
      induction l generalizing init with
      | nil => simp [List.foldl]
      | cons y ys ih =>
        simp only [List.foldl]
        rcases List.mem_cons.mp (ih (if lt y init then y else init)) with h1 | h1
        · rw [h1]
          by_cases hc : lt y init = true
          · simp [hc]
          · simp [hc]
        · simp [h1]
    have := hmem a as
    rw [hx] at this
    exact this

theorem foldl_pick_min [LinearOrder β] (lt : α → α → Bool) (key : α → β)
    (hiff : ∀ a b, lt a b = true ↔ key a < key b) :
    ∀ (l : List α) (init : α),
      key (l.foldl (fun best y => if lt y best then y else best) init) ≤ key init ∧
      ∀ x ∈ l, key (l.foldl (fun best y => if lt y best then y else best) init) ≤ key x := by
  intro l
  induction l with
  | nil => intro init; exact ⟨le_refl _, by simp⟩
  | cons y ys ih =>
    intro init
    by_cases hc : lt y init = true
    · obtain ⟨h1, h2⟩ := ih y
      have hlt : key y < key init := (hiff y init).mp hc
      constructor
      · show key (List.foldl _ (if lt y init then y else init) ys) ≤ key init
        rw [if_pos hc]
        exact le_trans h1 (le_of_lt hlt)
      · intro x hx
        rcases List.mem_cons.mp hx with rfl | hx'
        · show key (List.foldl _ (if lt x init then x else init) ys) ≤ key x
          rw [if_pos hc]
          exact h1
        · show key (List.foldl _ (if lt y init then y else init) ys) ≤ key x
          rw [if_pos hc]
          exact h2 x hx'
    · obtain ⟨h1, h2⟩ := ih init
      have hge : key init ≤ key y :=
        le_of_not_lt (fun hlt => hc ((hiff y init).mpr hlt))
      constructor
      · show key (List.foldl _ (if lt y init then y else init) ys) ≤ key init
        rw [if_neg hc]
        exact h1
      · intro x hx
        rcases List.mem_cons.mp hx with rfl | hx'
        · show key (List.foldl _ (if lt x init then x else init) ys) ≤ key x
          rw [if_neg hc]
          exact le_trans h1 hge
        · show key (List.foldl _ (if lt y init then y else init) ys) ≤ key x
          rw [if_neg hc]
          exact h2 x hx'

theorem pickBest_min [LinearOrder β] (lt : α → α → Bool) (key : α → β)
    (hiff : ∀ a b, lt a b = true ↔ key a < key b)
    (l : List α) (m : α) (h : pickBest lt l = some m) :
    ∀ x ∈ l, key m ≤ key x := by
  cases l with
  | nil => cases h
  | cons a as =>
    have hm : as.foldl (fun best y => if lt y best then y else best) a = m := by
      simpa [pickBest] using h
    obtain ⟨h1, h2⟩ := foldl_pick_min lt key hiff as a
    rw [hm] at h1 h2
    intro x hx
    rcases List.mem_cons.mp hx with rfl | hx'
    · exact h1
    · exact h2 x hx'

/-- The lexicographic sort key realized by the Groq comparator: status
priority descending (negated), then lastUsed ascending. -/
def groqSortKey (k : GroqKey) : Lex (Int × Int) :=
  toLex (-(groqStatusPriority k.status : Int), k.lastUsed)

/-- The lexicographic sort key realized by the OpenRouter comparator:
status priority descending, then coalesced balance descending, then
lastUsed ascending. -/
def orSortKey (k : ORKey) : Lex (Int × Lex (Int × Int)) :=
  toLex (-(orStatusPriority k.status : Int),
         toLex (-(orCoalesceBalance k.remainingBalance), k.lastUsed))

theorem groqBefore_iff (a b : GroqKey) :
    groqBefore a b = true ↔ groqSortKey a < groqSortKey b := by
  unfold groqBefore groqSortKey
  rcases eq_or_ne (groqStatusPriority a.status) (groqStatusPriority b.status) with hp | hp
  · simp [hp, Prod.Lex.lt_iff]
  · have hb : (groqStatusPriority a.status != groqStatusPriority b.status) = true :=
      bne_iff_ne.mpr hp
    simp only [hb, if_true, Prod.Lex.lt_iff, decide_eq_true_eq]
    constructor
    · intro h; left; omega
    · rintro (h | ⟨he, _⟩)
      · omega
      · exact absurd (by omega : groqStatusPriority a.status = groqStatusPriority b.status) hp

theorem orBefore_iff (a b : ORKey) :
    orBefore a b = true ↔ orSortKey a < orSortKey b := by
  unfold orBefore orSortKey
  rcases eq_or_ne (orStatusPriority a.status) (orStatusPriority b.status) with hp | hp
  · rw [if_neg (by simp [hp])]
    rcases eq_or_ne (orCoalesceBalance a.remainingBalance)
      (orCoalesceBalance b.remainingBalance) with hbal | hbal
    · rw [if_neg (by simp [hbal])]
      simp only [Prod.Lex.lt_iff, decide_eq_true_eq]
      constructor
      · intro h
        right
        exact ⟨by omega, Or.inr ⟨by omega, h⟩⟩
      · rintro (h | ⟨_, (h | ⟨_, h⟩)⟩)
        · omega
        · omega
        · exact h
    · rw [if_pos (bne_iff_ne.mpr hbal)]
      simp only [Prod.Lex.lt_iff, decide_eq_true_eq]
      constructor
      · intro h
        right
        exact ⟨by omega, Or.inl (by omega)⟩
      · rintro (h | ⟨_, (h | ⟨he, _⟩)⟩)
        · omega
        · omega
        · omega
  · rw [if_pos (bne_iff_ne.mpr hp)]
    simp only [Prod.Lex.lt_iff, decide_eq_true_eq]
    constructor
    · intro h
      left
      omega
    · rintro (h | ⟨he, _⟩)
      · omega
      · omega

/-- The net per-record effect of GroqKeyProvider.markRateLimited on the
targeted key: the window stamp followed by the update() it drives. -/
def groqRateLimitEffect (now : Int) (k : GroqKey) : GroqKey :=
  applyGroqUpdate { status := some .RATE_LIMITED, info := some "Rate limited by proxy" } now
    { k with rateLimitedAt := now, rateLimitedUntil := now + GROQ_RATE_LIMIT_LOCKOUT }

theorem groqMarkRateLimited_eq (pool : List GroqKey) (hash : String) (now : Int) :
    groqMarkRateLimited pool hash now =
      updateFirst (fun k => k.hash == hash) (groqRateLimitEffect now) pool := by
  unfold groqMarkRateLimited groqUpdate
  exact updateFirst_bind (fun k => k.hash == hash)
    (fun k => { k with rateLimitedAt := now,
                       rateLimitedUntil := now + GROQ_RATE_LIMIT_LOCKOUT })
    (applyGroqUpdate
      { status := some .RATE_LIMITED, info := some "Rate limited by proxy" } now)
    (fun x => rfl) pool

theorem groqRateLimitEffect_spec (now : Int) (k : GroqKey) :
    groqRateLimitEffect now k =
      if k.status == GroqKeyStatus.DEAD || k.status == GroqKeyStatus.INVALID then
        { k with rateLimitedAt := now, rateLimitedUntil := now + GROQ_RATE_LIMIT_LOCKOUT,
                 status := .RATE_LIMITED, info := "Rate limited by proxy",
                 isOverQuota := true, isDisabled := false, isRevoked := false,
                 lastChecked := now }
      else
        { k with rateLimitedAt := now, rateLimitedUntil := now + GROQ_RATE_LIMIT_LOCKOUT,
                 status := .RATE_LIMITED, info := "Rate limited by proxy",
                 isOverQuota := true, lastChecked := now } := by
  cases k with
  | mk key hash fams dis rev oq pc lu rla rlu lc tu st inf rli => cases st <;> rfl

/-! ## Concrete records used as witnesses -/

/-- The full Groq model family entitlement list. -/
def groqFamiliesAll : List GroqModelFamily :=
  [.llama8b, .llama70b, .llama4_17b, .gptOss120b, .gptOss20b, .kimi, .qwen32b]

/-- A healthy ACTIVE Groq key. -/
def gkA : GroqKey :=
  { key := "gqk-a", hash := "groq-aaaa", modelFamilies := groqFamiliesAll,
    isDisabled := false, isRevoked := false, isOverQuota := false,
    promptCount := 0, lastUsed := 10, rateLimitedAt := 0, rateLimitedUntil := 0,
    lastChecked := 0, tokenUsage := [], status := .ACTIVE, info := "ok",
    rateLimitInfo := none }

/-- A second healthy ACTIVE Groq key, used more recently than gkA. -/
def gkB : GroqKey := { gkA with key := "gqk-b", hash := "groq-bbbb", lastUsed := 20 }

/-- A freshly loaded, not yet checked Groq key. -/
def gkFresh : GroqKey :=
  { gkA with key := "gqk-f", hash := "groq-ffff", status := .UNKNOWN,
             info := "Key not yet checked" }

/-- Every OpenRouter key carries both families. -/
def orFamiliesAll : List ORModelFamily := [.paid, .free]

/-- A healthy paid OpenRouter key with positive balance. -/
def orPaidRich : ORKey :=
  { key := "ork-a", hash := "or-aaaa", modelFamilies := orFamiliesAll,
    isDisabled := false, isRevoked := false, isOverQuota := false,
    promptCount := 0, lastUsed := 10, rateLimitedAt := 0, rateLimitedUntil := 0,
    lastChecked := 0, tokenUsage := [], status := .PAID_Balance, info := "balance",
    isPaid := true, remainingBalance := some 10, isFreeTier := false }

/-- A paid OpenRouter key with some probe history (nonzero lastChecked). -/
def orKeyB : ORKey :=
  { orPaidRich with key := "ork-b", hash := "or-bbbb",
                    remainingBalance := some 7, lastChecked := 500 }

/-- A paid OpenRouter key whose balance is depleted (zero). -/
def orPaidZero : ORKey :=
  { orPaidRich with key := "ork-z", hash := "or-zzzz", status := .PAID_NoCredits,
                    isOverQuota := true, remainingBalance := some 0,
                    info := "out of credits" }

/-- An active free-tier OpenRouter key. -/
def orFreeActive : ORKey :=
  { orPaidRich with key := "ork-f", hash := "or-ffff", status := .FREE_Active,
                    isPaid := false, isFreeTier := true, remainingBalance := some 1,
                    info := "free" }

/-- A paid key with lower balance, least recently used. -/
def orLowBal : ORKey :=
  { orPaidRich with key := "ork-l", hash := "or-low",
                    remainingBalance := some 5, lastUsed := 0 }

/-- A paid key with higher balance, more recently used. -/
def orHighBal : ORKey :=
  { orPaidRich with key := "ork-h", hash := "or-high",
                    remainingBalance := some 10, lastUsed := 100 }

/-! ## Claim theorems -/

/-- Claim C1: for every pool state and every model request, get() never
returns a credential whose status has selection priority zero, nor a
disabled credential, nor one whose rateLimitedUntil is strictly greater
than the current time; the returned credential passed all three filter
checks at selection time (both providers). -/
theorem get_never_returns_unusable :
    (∀ (pool : List GroqKey) (fam : GroqModelFamily) (now : Int) (k : GroqKey)
       (pool2 : List GroqKey),
       groqGet pool fam now = Except.ok (k, pool2) →
       groqStatusPriority k.status ≠ 0 ∧ k.isDisabled = false ∧
       ¬ (now < k.rateLimitedUntil)) ∧
    (∀ (pool : List ORKey) (fam : ORModelFamily) (now : Int) (k : ORKey)
       (pool2 : List ORKey),
       orGet pool fam now = Except.ok (k, pool2) →
       orStatusPriority k.status ≠ 0 ∧ k.isDisabled = false ∧
       ¬ (now < k.rateLimitedUntil)) := by
  constructor
  · intro pool fam now k pool2 hok
    rcases hpick : pickBest (fun a b => groqBefore a.2 b.2) (groqAvailable pool fam now)
      with _ | ⟨i, kk⟩
    · simp only [groqGet, hpick] at hok
      exact Except.noConfusion hok
    · simp only [groqGet, hpick, Except.ok.injEq, Prod.mk.injEq] at hok
      obtain ⟨hk, _⟩ := hok
      subst hk
      have hmem := pickBest_mem _ _ _ hpick
      have hpair : (i, kk) ∈ pool.enum ∧ groqEligible fam now kk = true := by
        simpa [groqAvailable, List.mem_filter] using hmem
      have helig := hpair.2
      simp only [groqEligible, Bool.and_eq_true, Bool.not_eq_true',
        beq_eq_false_iff_ne, decide_eq_false_iff_not] at helig
      exact ⟨helig.1.1.1.2, helig.1.1.1.1, helig.1.2⟩
  · intro pool fam now k pool2 hok
    rcases hpick : pickBest (fun a b => orBefore a.2 b.2) (orAvailable pool fam now)
      with _ | ⟨i, kk⟩
    · simp only [orGet, hpick] at hok
      exact Except.noConfusion hok
    · simp only [orGet, hpick, Except.ok.injEq, Prod.mk.injEq] at hok
      obtain ⟨hk, _⟩ := hok
      subst hk
      have hmem := pickBest_mem _ _ _ hpick
      have hpair : (i, kk) ∈ pool.enum ∧ orEligible fam now kk = true := by
        simpa [orAvailable, List.mem_filter] using hmem
      have helig := hpair.2
      simp only [orEligible, Bool.and_eq_true, Bool.not_eq_true',
        beq_eq_false_iff_ne, decide_eq_false_iff_not] at helig
      exact ⟨helig.1.1.1.1.2, helig.1.1.1.1.1, helig.1.2⟩

/-- The snapshot returned by groqGet on the two-key example pool. -/
def gkASel : GroqKey := { gkA with lastUsed := 100 }

/-- The snapshot returned by orGet on the one-key example pool. -/
def orASel : ORKey := { orPaidRich with lastUsed := 100 }

/-- Witness for C1: a concrete get() on each provider, with the returned
credential passing all three checks. -/
theorem get_never_returns_unusable_witness :
    (groqStatusPriority gkASel.status ≠ 0 ∧ gkASel.isDisabled = false ∧
     ¬ ((100 : Int) < gkASel.rateLimitedUntil)) ∧
    (orStatusPriority orASel.status ≠ 0 ∧ orASel.isDisabled = false ∧
     ¬ ((100 : Int) < orASel.rateLimitedUntil)) :=
  ⟨get_never_returns_unusable.1 [gkA, gkB] .llama8b 100 gkASel [gkASel, gkB] rfl,
   get_never_returns_unusable.2 [orPaidRich] .paid 100 orASel [orASel] rfl⟩

/-- The record orRecheck actually produces from orKeyB. -/
def orKeyBReset : ORKey :=
  { orKeyB with status := .UNKNOWN_RateLimited, info := "Recheck scheduled",
                isDisabled := true, isRevoked := false, isOverQuota := false,
                isPaid := false, isFreeTier := false, remainingBalance := none,
                lastChecked := 0 }

/-- Claim C2 (code bug): after OpenRouter recheck() every credential does get
the UNKNOWN-variant status, isRevoked and isOverQuota false and lastChecked
cleared to zero, but it ends up DISABLED: update() treats the reset status
UNKNOWN (Rate Limited) as a hard failure and overrides the isDisabled: false
field that recheck() itself passes (last conjunct). -/
theorem or_recheck_leaves_credential_disabled :
    orRecheck [orKeyB] 1000 = some [orKeyBReset] ∧
    orKeyBReset.status = .UNKNOWN_RateLimited ∧
    orKeyBReset.isRevoked = false ∧
    orKeyBReset.isOverQuota = false ∧
    orKeyBReset.lastChecked = 0 ∧
    orKeyBReset.isDisabled = true ∧
    orRecheckPayload.isDisabled = some false :=
  ⟨rfl, rfl, rfl, rfl, rfl, rfl, rfl⟩

/-- The record the Groq 401 handling actually produces from gkFresh. -/
def gkInvalid : GroqKey :=
  { gkFresh with status := .INVALID, info := "Invalid API key.",
                 isDisabled := true, isRevoked := false, isOverQuota := true,
                 lastChecked := 200 }

/-- Claim C3 (code bug): an HTTP 401 probe response gives the credential the
permanent-failure status INVALID and disables it, and get() for every model
family then fails with the exhaustion error; but update() recomputes
isRevoked as (status == DEAD) = false, overriding the isRevoked: true the
checker passes, so the credential (and its list() view) is NOT revoked. -/
theorem groq_401_leaves_revoked_false :
    groqHandleAxiosError [gkFresh] "groq-ffff" (some 401) 200 = some [gkInvalid] ∧
    gkInvalid.status = .INVALID ∧
    gkInvalid.isDisabled = true ∧
    gkInvalid.isRevoked = false ∧
    (∀ fam, groqGet [gkInvalid] fam 300 = .error "No active Groq keys available.") ∧
    groqList [gkInvalid] = [{ gkInvalid with key := "" }] :=
  ⟨rfl, rfl, rfl, rfl, fun fam => by cases fam <;> rfl, rfl⟩

/-- The record OpenRouter markRateLimited actually produces from orKeyB. -/
def orKeyBRl : ORKey :=
  { orKeyB with rateLimitedAt := 100, rateLimitedUntil := 100 + OR_RATE_LIMIT_LOCKOUT }

/-- Claim C4 counterexample: the OpenRouter markRateLimited() sets only the
rate-limit window; it does not invoke update(), so the status stays
PAID (Balance) rather than a rate-limited status and lastChecked keeps its
old value instead of being stamped by update(). -/
theorem or_markRateLimited_no_update_counterexample :
    orMarkRateLimited [orKeyB] "or-bbbb" 100 = some [orKeyBRl] ∧
    orKeyBRl.rateLimitedAt = 100 ∧
    orKeyBRl.rateLimitedUntil = 100 + OR_RATE_LIMIT_LOCKOUT ∧
    orKeyBRl.status = .PAID_Balance ∧
    orKeyBRl.status ≠ .UNKNOWN_RateLimited ∧
    orKeyBRl.lastChecked = 500 ∧
    orKeyBRl.lastChecked ≠ 100 :=
  ⟨rfl, rfl, rfl, rfl, by decide, rfl, by decide⟩

/-- Claim C4 (amended): markRateLimited(hash) stamps rateLimitedAt = now and
rateLimitedUntil = now + lockout on the first record with that hash
(throwing on an unknown hash).  Only the Groq provider additionally drives
update() with a RATE_LIMITED status, which stamps lastChecked, sets
isOverQuota true and re-enables a previously DEAD/INVALID key; the
OpenRouter provider leaves every other field unchanged. -/
theorem markRateLimited_effect :
    (∀ (pool : List GroqKey) (hash : String) (now : Int),
       groqMarkRateLimited pool hash now =
         updateFirst (fun k => k.hash == hash)
           (fun k =>
             if k.status == GroqKeyStatus.DEAD || k.status == GroqKeyStatus.INVALID then
               { k with rateLimitedAt := now,
                        rateLimitedUntil := now + GROQ_RATE_LIMIT_LOCKOUT,
                        status := .RATE_LIMITED, info := "Rate limited by proxy",
                        isOverQuota := true, isDisabled := false, isRevoked := false,
                        lastChecked := now }
             else
               { k with rateLimitedAt := now,
                        rateLimitedUntil := now + GROQ_RATE_LIMIT_LOCKOUT,
                        status := .RATE_LIMITED, info := "Rate limited by proxy",
                        isOverQuota := true, lastChecked := now }) pool) ∧
    (∀ (pool : List ORKey) (hash : String) (now : Int),
       orMarkRateLimited pool hash now =
         updateFirst (fun k => k.hash == hash)
           (fun k => { k with rateLimitedAt := now,
                              rateLimitedUntil := now + OR_RATE_LIMIT_LOCKOUT }) pool) := by
  constructor
  · intro pool hash now
    rw [groqMarkRateLimited_eq]
    exact updateFirst_congr _ _ _ (fun k => groqRateLimitEffect_spec now k) pool
  · intro pool hash now
    rfl

/-- Claim C5: after markRateLimited(h) on the Groq pool, the targeted
record gets rateLimitedUntil = now + lockout and the RATE_LIMITED status,
and it fails the get() filter at every time before that bound; and any
record that is non-disabled, of nonzero priority, not over quota, entitled
to the family and whose rateLimitedUntil has elapsed passes the filter
again. -/
theorem groq_rate_limit_window_selection :
    (∀ (l₁ : List GroqKey) (k : GroqKey) (l₂ : List GroqKey) (hash : String)
       (now t : Int) (fam : GroqModelFamily),
       (∀ x ∈ l₁, (x.hash == hash) = false) → (k.hash == hash) = true →
       t < now + GROQ_RATE_LIMIT_LOCKOUT →
       groqMarkRateLimited (l₁ ++ k :: l₂) hash now =
         some (l₁ ++ groqRateLimitEffect now k :: l₂) ∧
       (groqRateLimitEffect now k).rateLimitedUntil = now + GROQ_RATE_LIMIT_LOCKOUT ∧
       (groqRateLimitEffect now k).status = .RATE_LIMITED ∧
       groqEligible fam t (groqRateLimitEffect now k) = false) ∧
    (∀ (k : GroqKey) (fam : GroqModelFamily) (t : Int),
       k.isDisabled = false → groqStatusPriority k.status ≠ 0 →
       k.isOverQuota = false → k.rateLimitedUntil ≤ t →
       k.modelFamilies.contains fam = true →
       groqEligible fam t k = true) := by
  constructor
  · intro l₁ k l₂ hash now t fam h₁ hk ht
    refine ⟨?_, ?_, ?_, ?_⟩
    · rw [groqMarkRateLimited_eq]
      exact updateFirst_append _ _ l₁ k l₂ h₁ hk
    · rw [groqRateLimitEffect_spec]
      by_cases hd : (k.status == GroqKeyStatus.DEAD || k.status == GroqKeyStatus.INVALID) = true
      · rw [if_pos hd]
      · rw [if_neg hd]
    · rw [groqRateLimitEffect_spec]
      by_cases hd : (k.status == GroqKeyStatus.DEAD || k.status == GroqKeyStatus.INVALID) = true
      · rw [if_pos hd]
      · rw [if_neg hd]
    · rw [groqRateLimitEffect_spec]
      by_cases hd : (k.status == GroqKeyStatus.DEAD || k.status == GroqKeyStatus.INVALID) = true
      · rw [if_pos hd]
        simp [groqEligible]
      · rw [if_neg hd]
        simp [groqEligible]
  · intro k fam t h1 h2 h3 h4 h5
    simp [groqEligible, h1, h3, beq_eq_false_iff_ne.mpr h2,
      decide_eq_false (not_lt.mpr h4)]
    simpa using h5

/-- Witness for C5 at a one-key pool: markRateLimited then the window check. -/
theorem groq_rate_limit_window_selection_witness :
    (groqMarkRateLimited [gkA] "groq-aaaa" 100 = some [groqRateLimitEffect 100 gkA] ∧
     (groqRateLimitEffect 100 gkA).rateLimitedUntil = 100 + GROQ_RATE_LIMIT_LOCKOUT ∧
     (groqRateLimitEffect 100 gkA).status = .RATE_LIMITED ∧
     groqEligible .llama8b 150 (groqRateLimitEffect 100 gkA) = false) ∧
    groqEligible .llama8b 100 gkA = true := by
  constructor
  · exact groq_rate_limit_window_selection.1 [] gkA [] "groq-aaaa" 100 150 .llama8b
      (by simp) rfl (by decide)
  · exact groq_rate_limit_window_selection.2 gkA .llama8b 100 rfl (by decide) rfl
      (by decide) rfl

/-- Claim C6: a paid-family get() selects only paid-marked credentials with
unknown (null) or strictly positive remaining balance; a free-family get()
accepts any credential that passes the generic checks and is not an
exhausted free-tier credential (free-active or paid alike); and in the
concrete two-key scenario the paid request fails with the paid-tier
exhaustion message while the free request succeeds. -/
theorem or_tiered_selection :
    (∀ (pool : List ORKey) (now : Int) (k : ORKey) (pool2 : List ORKey),
       orGet pool .paid now = Except.ok (k, pool2) →
       k.isPaid = true ∧ (∀ b, k.remainingBalance = some b → 0 < b)) ∧
    (∀ (now : Int) (k : ORKey),
       k.isDisabled = false → orStatusPriority k.status ≠ 0 →
       ¬ (now < k.rateLimitedUntil) →
       k.modelFamilies.contains ORModelFamily.free = true →
       ¬ (k.isFreeTier = true ∧ k.status = .FREE_Exhausted) →
       orEligible .free now k = true) ∧
    (orGet [orPaidZero, orFreeActive] .paid 50 =
       .error "No active OpenRouter Paid keys available (Balance depleted or key limit reached)." ∧
     orGet [orPaidZero, orFreeActive] .free 50 =
       .ok ({ orFreeActive with lastUsed := 50 },
            [orPaidZero, { orFreeActive with lastUsed := 50 }])) := by
  refine ⟨?_, ?_, rfl, rfl⟩
  · intro pool now k pool2 hok
    rcases hpick : pickBest (fun a b => orBefore a.2 b.2) (orAvailable pool .paid now)
      with _ | ⟨i, kk⟩
    · simp only [orGet, hpick] at hok
      exact Except.noConfusion hok
    · simp only [orGet, hpick, Except.ok.injEq, Prod.mk.injEq] at hok
      obtain ⟨hk, _⟩ := hok
      subst hk
      have hmem := pickBest_mem _ _ _ hpick
      have hpair : (i, kk) ∈ pool.enum ∧ orEligible .paid now kk = true := by
        simpa [orAvailable, List.mem_filter] using hmem
      have helig := hpair.2
      simp only [orEligible, Bool.and_eq_true, Bool.not_eq_true'] at helig
      have hpaid := helig.1.1.1.2
      simp only [beq_self_eq_true, Bool.true_and, Bool.or_eq_false_iff,
        Bool.not_eq_false'] at hpaid
      refine ⟨hpaid.1, ?_⟩
      intro b hb
      have hdep := hpaid.2
      rw [hb] at hdep
      have hnb : ¬ b ≤ 0 := by simpa [orBalanceDepleted] using hdep
      omega
  · intro now k h1 h2 h3 h4 h5
    have h6 : (k.isFreeTier && k.status == ORKeyStatus.FREE_Exhausted) = false := by
      rcases Bool.eq_false_or_eq_true k.isFreeTier with hft | hft
      · rcases eq_or_ne k.status ORKeyStatus.FREE_Exhausted with hst | hst
        · exact absurd ⟨hft, hst⟩ h5
        · simp [hft, beq_eq_false_iff_ne.mpr hst]
      · simp [hft]
    simp [orEligible, h1, h6, beq_eq_false_iff_ne.mpr h2, decide_eq_false h3]
    simpa using h4

/-- Witness for C6: the paid selection facts at a concrete paid get(), the
positivity of the concrete returned balance, and free-eligibility of the
concrete free-active credential. -/
theorem or_tiered_selection_witness :
    orASel.isPaid = true ∧ ((0 : Int) < 10) ∧
    orEligible .free 50 orFreeActive = true :=
  ⟨(or_tiered_selection.1 [orPaidRich] 100 orASel [orASel] rfl).1,
   (or_tiered_selection.1 [orPaidRich] 100 orASel [orASel] rfl).2 10 rfl,
   or_tiered_selection.2.1 50 orFreeActive rfl (by decide) (by decide) rfl (by decide)⟩

/-- The snapshot returned by orGet on the two-balance example pool. -/
def orHighBalSel : ORKey := { orHighBal with lastUsed := 200 }

/-- Claim C7 counterexample: two eligible OpenRouter credentials of equal
status priority; get() returns the higher-balance one even though the other
has the strictly smaller lastUsed, because remaining balance is a
higher-precedence tiebreaker than LRU. -/
theorem or_get_balance_beats_lru_counterexample :
    orGet [orLowBal, orHighBal] .paid 200 =
      .ok (orHighBalSel, [orLowBal, orHighBalSel]) ∧
    orStatusPriority orLowBal.status = orStatusPriority orHighBal.status ∧
    orEligible .paid 200 orLowBal = true ∧
    orEligible .paid 200 orHighBal = true ∧
    orLowBal.lastUsed < orHighBal.lastUsed ∧
    orHighBalSel.hash ≠ orLowBal.hash :=
  ⟨rfl, rfl, rfl, rfl, by decide, by decide⟩

/-- Claim C7 (amended): the selected credential is minimal in the
comparator's lexicographic order, so among eligible credentials sharing its
status priority (and, for OpenRouter, also its coalesced remaining balance)
it has the smallest pre-selection lastUsed; and the pool record at the
selected position carries lastUsed = call time immediately afterwards. -/
theorem get_lru_among_equal_priority :
    (∀ (pool : List GroqKey) (fam : GroqModelFamily) (now : Int) (i : Nat) (k : GroqKey),
       pickBest (fun a b => groqBefore a.2 b.2) (groqAvailable pool fam now) = some (i, k) →
       (∀ p ∈ groqAvailable pool fam now,
          groqStatusPriority p.2.status = groqStatusPriority k.status →
          k.lastUsed ≤ p.2.lastUsed) ∧
       groqGet pool fam now =
         .ok ({ k with lastUsed := now }, pool.set i { k with lastUsed := now }) ∧
       (pool.set i { k with lastUsed := now })[i]? = some { k with lastUsed := now }) ∧
    (∀ (pool : List ORKey) (fam : ORModelFamily) (now : Int) (i : Nat) (k : ORKey),
       pickBest (fun a b => orBefore a.2 b.2) (orAvailable pool fam now) = some (i, k) →
       (∀ p ∈ orAvailable pool fam now,
          orStatusPriority p.2.status = orStatusPriority k.status →
          orCoalesceBalance p.2.remainingBalance = orCoalesceBalance k.remainingBalance →
          k.lastUsed ≤ p.2.lastUsed) ∧
       orGet pool fam now =
         .ok ({ k with lastUsed := now }, pool.set i { k with lastUsed := now }) ∧
       (pool.set i { k with lastUsed := now })[i]? = some { k with lastUsed := now }) := by
  constructor
  · intro pool fam now i k hpick
    refine ⟨?_, ?_, ?_⟩
    · intro p hp hpri
      have hmin := pickBest_min (fun a b => groqBefore a.2 b.2)
        (fun p => groqSortKey p.2) (fun a b => groqBefore_iff a.2 b.2) _ _ hpick p hp
      simp only [groqSortKey, Prod.Lex.le_iff] at hmin
      rcases hmin with h | ⟨_, h⟩
      · exfalso
        omega
      · exact h
    · simp only [groqGet, hpick]
    · have hmem := pickBest_mem _ _ _ hpick
      have hpair : (i, k) ∈ pool.enum ∧ groqEligible fam now k = true := by
        simpa [groqAvailable, List.mem_filter] using hmem
      have hget : pool[i]? = some k := List.mem_enum_iff_getElem?.mp hpair.1
      obtain ⟨hlen, _⟩ := List.getElem?_eq_some.mp hget
      exact List.getElem?_set_eq_of_lt _ hlen
  · intro pool fam now i k hpick
    refine ⟨?_, ?_, ?_⟩
    · intro p hp hpri hbal
      have hmin := pickBest_min (fun a b => orBefore a.2 b.2)
        (fun p => orSortKey p.2) (fun a b => orBefore_iff a.2 b.2) _ _ hpick p hp
      simp only [orSortKey, Prod.Lex.le_iff] at hmin
      rcases hmin with h | ⟨_, h⟩
      · exfalso
        omega
      · rcases h with h | ⟨_, h⟩
        · exfalso
          omega
        · exact h
    · simp only [orGet, hpick]
    · have hmem := pickBest_mem _ _ _ hpick
      have hpair : (i, k) ∈ pool.enum ∧ orEligible fam now k = true := by
        simpa [orAvailable, List.mem_filter] using hmem
      have hget : pool[i]? = some k := List.mem_enum_iff_getElem?.mp hpair.1
      obtain ⟨hlen, _⟩ := List.getElem?_eq_some.mp hget
      exact List.getElem?_set_eq_of_lt _ hlen

/-- The snapshot returned by orGet on the single low-balance pool. -/
def orLowBalSel : ORKey := { orLowBal with lastUsed := 200 }

/-- Witness for C7 (amended) at concrete pools: the get() equations produced
by the theorem at a two-key Groq pool (equal priority, gkA least recently
used) and a one-key OpenRouter pool. -/
theorem get_lru_among_equal_priority_witness :
    groqGet [gkA, gkB] .llama8b 100 = .ok (gkASel, [gkASel, gkB]) ∧
    orGet [orLowBal] .paid 200 = .ok (orLowBalSel, [orLowBalSel]) :=
  ⟨(get_lru_among_equal_priority.1 [gkA, gkB] .llama8b 100 0 gkA rfl).2.1,
   (get_lru_among_equal_priority.2 [orLowBal] .paid 200 0 orLowBal rfl).2.1⟩

/-- The record the OpenRouter network-error handling produces from orKeyB. -/
def orKeyBNet : ORKey :=
  { orKeyB with lastChecked := 1000 - (OR_KEY_CHECK_PERIOD - ONE_HOUR),
                remainingBalance := none }

/-- Claim C8 counterexample: on a transport error that is neither 429 nor
401 the OpenRouter checker does not only touch scheduling metadata: it also
resets remainingBalance to null (the status and flags are unchanged). -/
theorem or_network_error_clears_balance_counterexample :
    orKeyB.remainingBalance = some 7 ∧
    orHandleAxiosError [orKeyB] "or-bbbb" none 1000 = some [orKeyBNet] ∧
    orKeyBNet.remainingBalance = none ∧
    orKeyBNet.remainingBalance ≠ orKeyB.remainingBalance ∧
    orKeyBNet.status = orKeyB.status :=
  ⟨rfl, rfl, rfl, by decide, rfl⟩

/-- Claim C8 (amended): for a probe error that is neither HTTP 429 nor
HTTP 401, the handler's whole effect on the pool is to set the targeted
record's lastChecked to now - (keyCheckPeriod - one hour) - and, in the
OpenRouter checker only, additionally reset remainingBalance to null;
status and every derived flag are untouched. -/
theorem probe_network_error_reschedules_only :
    (∀ (pool : List GroqKey) (hash : String) (code : Option Nat) (now : Int),
       code ≠ some 429 → code ≠ some 401 →
       groqHandleAxiosError pool hash code now =
         updateFirst (fun k => k.hash == hash)
           (fun k => { k with lastChecked := now - (GROQ_KEY_CHECK_PERIOD - ONE_HOUR) })
           pool) ∧
    (∀ (pool : List ORKey) (hash : String) (code : Option Nat) (now : Int),
       code ≠ some 429 → code ≠ some 401 →
       orHandleAxiosError pool hash code now =
         updateFirst (fun k => k.hash == hash)
           (fun k => { k with lastChecked := now - (OR_KEY_CHECK_PERIOD - ONE_HOUR),
                              remainingBalance := none })
           pool) := by
  constructor
  · intro pool hash code now h429 h401
    unfold groqHandleAxiosError
    rw [if_neg (by simp [h429]), if_neg (by simp [h401])]
    exact updateFirst_congr _ _ _ (fun k => rfl) pool
  · intro pool hash code now h429 _
    unfold orHandleAxiosError
    rw [if_neg (by simp [h429])]
    exact updateFirst_congr _ _ _ (fun k => rfl) pool

/-- Witness for C8 at concrete one-key pools with a pure network failure. -/
theorem probe_network_error_reschedules_only_witness :
    groqHandleAxiosError [gkA] "groq-aaaa" none 1000 =
      updateFirst (fun k => k.hash == "groq-aaaa")
        (fun k => { k with lastChecked := 1000 - (GROQ_KEY_CHECK_PERIOD - ONE_HOUR) })
        [gkA] ∧
    orHandleAxiosError [orKeyB] "or-bbbb" none 1000 =
      updateFirst (fun k => k.hash == "or-bbbb")
        (fun k => { k with lastChecked := 1000 - (OR_KEY_CHECK_PERIOD - ONE_HOUR),
                           remainingBalance := none })
        [orKeyB] :=
  ⟨probe_network_error_reschedules_only.1 [gkA] "groq-aaaa" none 1000
      (by decide) (by decide),
   probe_network_error_reschedules_only.2 [orKeyB] "or-bbbb" none 1000
      (by decide) (by decide)⟩

/-- Claim C9: running the provider mutator chain twice, each time starting
from the Mutation Manager's recorded pristine original, yields identical
outbound requests for every request and credential - both for the
OpenRouter chain (selectUpstreamPath, addKey, finalizeBody) and the Groq
chain (addKey, finalizeBody); no mutator reads state written by a previous
run. -/
theorem mutator_chain_idempotent :
    ∀ (r : ProxyRequest) (key : String),
      (runChain (orMutatorChain key)
          ((runChain (orMutatorChain key) (mkManager r)).reset)).request =
        (runChain (orMutatorChain key) (mkManager r)).request ∧
      (runChain (groqMutatorChain key)
          ((runChain (groqMutatorChain key) (mkManager r)).reset)).request =
        (runChain (groqMutatorChain key) (mkManager r)).request :=
  fun _ _ => ⟨rfl, rfl⟩

/-- Claim C10: with a hash that is not in the pool, incrementUsage is a
silent no-op returning the pool unchanged, while update() and
markRateLimited() fail (none models the TypeError thrown on the
non-null-asserted dereference of a failed find), for both providers. -/
theorem unknown_hash_operations :
    (∀ (pool : List GroqKey) (hash : String), (∀ x ∈ pool, x.hash ≠ hash) →
       (∀ fam u, groqIncrementUsage pool hash fam u = pool) ∧
       (∀ u now, groqUpdate pool hash u now = none) ∧
       (∀ now, groqMarkRateLimited pool hash now = none)) ∧
    (∀ (pool : List ORKey) (hash : String), (∀ x ∈ pool, x.hash ≠ hash) →
       (∀ fam u, orIncrementUsage pool hash fam u = pool) ∧
       (∀ u now, orUpdate pool hash u now = none) ∧
       (∀ now, orMarkRateLimited pool hash now = none)) := by
  constructor
  · intro pool hash h
    have hf : ∀ x ∈ pool, ((fun k => k.hash == hash) x) = false :=
      fun x hx => beq_eq_false_iff_ne.mpr (h x hx)
    refine ⟨?_, ?_, ?_⟩
    · intro fam u
      unfold groqIncrementUsage
      rw [updateFirst_none_of_no_match _ _ pool hf]
      rfl
    · intro u now
      exact updateFirst_none_of_no_match _ _ pool hf
    · intro now
      rw [groqMarkRateLimited_eq]
      exact updateFirst_none_of_no_match _ _ pool hf
  · intro pool hash h
    have hf : ∀ x ∈ pool, ((fun k => k.hash == hash) x) = false :=
      fun x hx => beq_eq_false_iff_ne.mpr (h x hx)
    refine ⟨?_, ?_, ?_⟩
    · intro fam u
      unfold orIncrementUsage
      rw [updateFirst_none_of_no_match _ _ pool hf]
      rfl
    · intro u now
      exact updateFirst_none_of_no_match _ _ pool hf
    · intro now
      exact updateFirst_none_of_no_match _ _ pool hf

/-- Witness for C10 at concrete one-key pools and the foreign hash "nope". -/
theorem unknown_hash_operations_witness :
    (groqIncrementUsage [gkA] "nope" .llama8b ⟨3, 4⟩ = [gkA] ∧
     groqUpdate [gkA] "nope" {} 5 = none ∧
     groqMarkRateLimited [gkA] "nope" 5 = none) ∧
    (orIncrementUsage [orPaidRich] "nope" .paid ⟨3, 4⟩ = [orPaidRich] ∧
     orUpdate [orPaidRich] "nope" {} 5 = none ∧
     orMarkRateLimited [orPaidRich] "nope" 5 = none) := by
  have hg := unknown_hash_operations.1 [gkA] "nope" (by decide)
  have ho := unknown_hash_operations.2 [orPaidRich] "nope" (by decide)
  exact ⟨⟨hg.1 .llama8b ⟨3, 4⟩, hg.2.1 {} 5, hg.2.2 5⟩,
         ⟨ho.1 .paid ⟨3, 4⟩, ho.2.1 {} 5, ho.2.2 5⟩⟩
